import Mathlib

/-!
Verification development for the ResuMatch.ai backend (`src/main.py`).

The service is a FastAPI application.  Its pure logic (environment-key
reporting, prompt construction, extension dispatch for file parsing,
truncation, response-shape validation, and the single-call error policy of
the tailoring endpoint) is embedded shallowly below.  External libraries
(the OpenAI client together with `json.loads` applied to its reply, the
`python-docx` `Document` parser, `pdfminer`'s `extract_text`, and the
`slowapi` rate limiter) are modelled as explicit parameters or, where the
claims concern their documented behaviour, as faithful models, each marked
in its doc comment.

Conventions: Python `str` values that the proofs must compute with
character by character (file contents, filenames) are `List Char`;
raw upload bytes are `List Nat` (each < 256); prompt strings stay `String`.
-/

deriving instance DecidableEq for Except

namespace ResuMatch

/-! ## `/check-key` endpoint (src/main.py lines 45-50) -/

/-- Shape of the JSON object returned by `GET /check-key`. -/
inductive CheckKeyResult where
  | missing (message : String)
  | ok (key_starts_with : String)
deriving DecidableEq

/-- `check_key` (src/main.py:45-50).  The argument is the value of
`os.environ.get("OPENAI_API_KEY", "")`: an absent variable is read back as
`""`, and Python's `if not key:` is the emptiness test on that string. -/
def check_key (key : String) : CheckKeyResult :=
  if key = "" then CheckKeyResult.missing "OPENAI_API_KEY not found"
  else CheckKeyResult.ok (key.take 10 ++ "...")

/-! ## Request / response models (src/main.py lines 59-74) -/

/-- `TailorRequest` (src/main.py:59-64).  The structure defaults mirror the
pydantic field defaults: a field omitted from the request JSON takes the
default; an explicit `null` is `none`. -/
structure TailorRequest where
  resume_text : String
  job_text : String
  target_title : Option String := none
  tone : Option String := some "Professional"
  instructions : Option String := some ""
deriving DecidableEq

/-- `TailoredSection` (src/main.py:66-68). -/
structure TailoredSection where
  heading : String
  bullets : List String
deriving DecidableEq

/-- `TailorResponse` (src/main.py:70-74).  All four fields are required and
none is `Optional`; pydantic places no minimum length on `sections` or on a
section's `bullets`. -/
structure TailorResponse where
  summary : String
  improved_resume : String
  cover_letter : String
  sections : List TailoredSection
deriving DecidableEq

/-! ## Prompt helpers (src/main.py lines 78-120) -/

/-- `SYSTEM_PROMPT` (src/main.py:78-88), transcribed verbatim. -/
def SYSTEM_PROMPT : String :=
  "You are ResuMatch.ai, a senior resume writer.\nRules:\n- Rewrite to fit the job description precisely.\n- Keep facts from the candidate; do NOT invent employers, dates, or certifications.\n- Prefer action verbs, outcomes, and quantified metrics (%, $, time).\n- Remove redundancies and irrelevant details.\n- Mirror the job’s vocabulary when truthful.\n- Output concise, scannable bullets.\n- Always respond as a single JSON object with keys:\n  summary, improved_resume, cover_letter, sections (array of \x7bheading, bullets[]\x7d)\n"

/-- Rendering of an `Optional[str]` inside a Python f-string: `None` prints
as the text `None`, a string prints as itself. -/
def pyStrOfOpt : Option String → String
  | none => "None"
  | some s => s

/-- `_user_prompt` (src/main.py:90-120).  `req.target_title or "the target
role"` falls through to the default when the title is `None` **or** the
empty string (Python truthiness); `{req.tone}` and `{req.instructions}`
render through `pyStrOfOpt`.  The f-string's literal text is transcribed
verbatim, `\x7b\x7b`/`\x7d\x7d` escapes rendered to single braces. -/
def _user_prompt (req : TailorRequest) : String :=
  let role := match req.target_title with
    | none => "the target role"
    | some t => if t = "" then "the target role" else t
  "\nTarget Title: " ++ role
    ++ "\nTone: " ++ pyStrOfOpt req.tone
    ++ "\nExtra Instructions: " ++ pyStrOfOpt req.instructions
    ++ "\n\nJob Description:\n" ++ req.job_text
    ++ "\n\nCandidate Resume:\n" ++ req.resume_text
    ++ "\n\nTasks:\n1) Write a 2–3 sentence summary tailored to the job.\n2) Provide a short \"improved resume notes\" paragraph (what changed and why).\n3) Draft a one-page cover letter (3–5 short paragraphs).\n4) Provide 3–5 sections with improved bullet points.\nReturn ONLY valid JSON with:\n\x7b\n  \"summary\": \"...\",\n  \"improved_resume\": \"...\",\n  \"cover_letter\": \"...\",\n  \"sections\": [\n    \x7b\n      \"heading\": \"...\",\n      \"bullets\": [\"...\", \"...\"]\n    \x7d\n  ]\n\x7d\n"

/-! ## File parsing (src/main.py lines 124-155) -/

/-- Model of Python's `bytes.decode("utf-8", errors="ignore")` (the `.txt`
branch of `parse_resume`, src/main.py:146): standard UTF-8 decoding in
which every byte that does not start a complete well-formed sequence
(stray continuation bytes, overlong encodings, surrogate encodings, code
points above `0x10FFFF`, truncated sequences) is dropped and decoding
continues; it never fails.  The first argument is recursion fuel: every
step consumes at least one byte, so fuel equal to the number of bytes
(supplied by `utf8DecodeIgnore` below) is always sufficient. -/
def utf8DecodeLoop : Nat → List Nat → List Char
  | 0, _ => []
  | _ + 1, [] => []
  | fuel + 1, b :: rest =>
    if b < 0x80 then
      Char.ofNat b :: utf8DecodeLoop fuel rest
    else if b < 0xC2 then
      utf8DecodeLoop fuel rest
    else if b < 0xE0 then
      match rest with
      | [] => []
      | b1 :: rest1 =>
        if 0x80 ≤ b1 ∧ b1 < 0xC0 then
          Char.ofNat ((b - 0xC0) * 0x40 + (b1 - 0x80)) :: utf8DecodeLoop fuel rest1
        else utf8DecodeLoop fuel rest
    else if b < 0xF0 then
      match rest with
      | b1 :: b2 :: rest2 =>
        if (0x80 ≤ b1 ∧ b1 < 0xC0) ∧ (0x80 ≤ b2 ∧ b2 < 0xC0)
            ∧ (b = 0xE0 → 0xA0 ≤ b1) ∧ (b = 0xED → b1 < 0xA0) then
          Char.ofNat ((b - 0xE0) * 0x1000 + (b1 - 0x80) * 0x40 + (b2 - 0x80))
            :: utf8DecodeLoop fuel rest2
        else utf8DecodeLoop fuel rest
      | _ => utf8DecodeLoop fuel rest
    else if b < 0xF5 then
      match rest with
      | b1 :: b2 :: b3 :: rest3 =>
        if (0x80 ≤ b1 ∧ b1 < 0xC0) ∧ (0x80 ≤ b2 ∧ b2 < 0xC0) ∧ (0x80 ≤ b3 ∧ b3 < 0xC0)
            ∧ (b = 0xF0 → 0x90 ≤ b1) ∧ (b = 0xF4 → b1 < 0x90) then
          Char.ofNat ((b - 0xF0) * 0x40000 + (b1 - 0x80) * 0x1000
              + (b2 - 0x80) * 0x40 + (b3 - 0x80))
            :: utf8DecodeLoop fuel rest3
        else utf8DecodeLoop fuel rest
      | _ => utf8DecodeLoop fuel rest
    else
      utf8DecodeLoop fuel rest

/-- `content.decode("utf-8", errors="ignore")` on a byte list: run the
decoding loop with fuel equal to the input length. -/
def utf8DecodeIgnore (bytes : List Nat) : List Char :=
  utf8DecodeLoop bytes.length bytes

/-- Failures surfaced by an endpoint: an `HTTPException` raised by the
handler itself, or an exception from an underlying parsing library that
propagates unhandled out of the handler (FastAPI then answers 500). -/
inductive EndpointFailure where
  | http (status_code : Nat) (detail : String)
  | unhandled
deriving DecidableEq

/-- `_docx_to_text` (src/main.py:124-127):
`"\n".join([p.text for p in doc.paragraphs])`.  The `python-docx`
`Document` parser is external: `document` maps the raw bytes to the list
of paragraph texts, or fails (the library raised). -/
def _docx_to_text (document : List Nat → Except Unit (List (List Char)))
    (file_bytes : List Nat) : Except Unit (List Char) :=
  (document file_bytes).map (fun ps => List.intercalate [('\n' : Char)] ps)

/-- `_pdf_to_text` (src/main.py:129-131): a direct call into pdfminer's
`extract_text`, which is external and passed as a parameter. -/
def _pdf_to_text (pdf_extract_text : List Nat → Except Unit (List Char))
    (file_bytes : List Nat) : Except Unit (List Char) :=
  pdf_extract_text file_bytes

/-- `parse_resume` (src/main.py:133-155).  `name` is
`(file.filename or "").lower()`; dispatch is by `str.endswith` on the
lowercased name; a successful extraction is returned capped to its first
200000 characters (`text[:200000]`); a library exception propagates
unhandled; an unrecognised extension raises `HTTPException(400, ...)`. -/
def parse_resume (document : List Nat → Except Unit (List (List Char)))
    (pdf_extract_text : List Nat → Except Unit (List Char))
    (filename : Option (List Char)) (content : List Nat) :
    Except EndpointFailure (List Char) :=
  let name := (filename.getD []).map Char.toLower
  if List.isSuffixOf ".docx".data name then
    match _docx_to_text document content with
    | Except.ok text => Except.ok (text.take 200000)
    | Except.error _ => Except.error EndpointFailure.unhandled
  else if List.isSuffixOf ".pdf".data name then
    match _pdf_to_text pdf_extract_text content with
    | Except.ok text => Except.ok (text.take 200000)
    | Except.error _ => Except.error EndpointFailure.unhandled
  else if List.isSuffixOf ".txt".data name then
    Except.ok ((utf8DecodeIgnore content).take 200000)
  else
    Except.error (EndpointFailure.http 400 "Unsupported file type. Please upload PDF, DOCX, or TXT.")

/-- The text each branch of `parse_resume` extracts **before** the
`[:200000]` cap is applied: the `if/elif` dispatch of src/main.py:141-151
with the truncation of line 153 removed.  Used to state that the endpoint
returns exactly the first 200000 characters of the extracted text. -/
def extractedText (document : List Nat → Except Unit (List (List Char)))
    (pdf_extract_text : List Nat → Except Unit (List Char))
    (name : List Char) (content : List Nat) : Except Unit (List Char) :=
  if List.isSuffixOf ".docx".data name then
    _docx_to_text document content
  else if List.isSuffixOf ".pdf".data name then
    _pdf_to_text pdf_extract_text content
  else if List.isSuffixOf ".txt".data name then
    Except.ok (utf8DecodeIgnore content)
  else
    Except.error ()

/-! ## Tailoring endpoint (src/main.py lines 159-184) -/

/-- A Python exception, observed through `type(e).__name__` and `str(e)` —
exactly what the handler's `except` clause reads (src/main.py:183). -/
structure PyExn where
  typeName : String
  message : String
deriving DecidableEq

/-- JSON values as produced by `json.loads` (src/main.py:178).  Numbers are
modelled as integers: only the type tag matters to the validation below.
`obj` field lists coming from `json.loads` have pairwise-distinct keys
(Python dicts). -/
inductive Json where
  | null
  | bool (b : Bool)
  | num (n : Int)
  | str (s : String)
  | arr (elems : List Json)
  | obj (fields : List (String × Json))

/-- Pydantic validation of a required model field: missing key →
`ValidationError` (`TailorRequest`/`TailorResponse` fields have no
defaults for these keys). -/
def requiredField (fields : List (String × Json)) (k : String) : Except PyExn Json :=
  match fields.lookup k with
  | some j => Except.ok j
  | none => Except.error ⟨"ValidationError", "Field required: " ++ k⟩

/-- Pydantic validation of a `str` field: accepts exactly JSON strings. -/
def validateStr : Json → Except PyExn String
  | Json.str s => Except.ok s
  | _ => Except.error ⟨"ValidationError", "Input should be a valid string"⟩

/-- Pydantic validation of a `List[str]` field's elements. -/
def validateStrs : List Json → Except PyExn (List String)
  | [] => Except.ok []
  | j :: rest =>
    match validateStr j with
    | Except.error e => Except.error e
    | Except.ok s =>
      match validateStrs rest with
      | Except.error e => Except.error e
      | Except.ok ss => Except.ok (s :: ss)

/-- Pydantic validation of one `TailoredSection` (src/main.py:66-68):
a JSON object with a string `heading` and a `bullets` array of strings;
extra keys are ignored (pydantic's default); **no** minimum length is
declared for `bullets`. -/
def validateSection : Json → Except PyExn TailoredSection
  | Json.obj fields =>
    (match requiredField fields "heading" with
    | Except.error e => Except.error e
    | Except.ok hj =>
      match validateStr hj with
      | Except.error e => Except.error e
      | Except.ok h =>
        match requiredField fields "bullets" with
        | Except.error e => Except.error e
        | Except.ok (Json.arr elems) =>
          (match validateStrs elems with
          | Except.error e => Except.error e
          | Except.ok bs => Except.ok ⟨h, bs⟩)
        | Except.ok _ => Except.error ⟨"ValidationError", "Input should be a valid list"⟩)
  | _ => Except.error ⟨"ValidationError", "Input should be a valid dictionary"⟩

/-- Pydantic validation of each element of `sections`. -/
def validateSections : List Json → Except PyExn (List TailoredSection)
  | [] => Except.ok []
  | j :: rest =>
    match validateSection j with
    | Except.error e => Except.error e
    | Except.ok s =>
      match validateSections rest with
      | Except.error e => Except.error e
      | Except.ok ss => Except.ok (s :: ss)

/-- Pydantic validation of one required string field of `TailorResponse`:
the key must be present and hold a string. -/
def validateField (fields : List (String × Json)) (k : String) : Except PyExn String :=
  match requiredField fields k with
  | Except.error e => Except.error e
  | Except.ok j => validateStr j

/-- `TailorResponse(**data)` (src/main.py:179): `data` must be a mapping
(otherwise the `**` unpacking raises `TypeError`); the four declared fields
are required with their declared types; extra keys are ignored; **no**
minimum length is declared for `sections`. -/
def validateTailorResponse : Json → Except PyExn TailorResponse
  | Json.obj fields =>
    (match validateField fields "summary" with
    | Except.error e => Except.error e
    | Except.ok s =>
      match validateField fields "improved_resume" with
      | Except.error e => Except.error e
      | Except.ok ir =>
        match validateField fields "cover_letter" with
        | Except.error e => Except.error e
        | Except.ok cl =>
          match requiredField fields "sections" with
          | Except.error e => Except.error e
          | Except.ok (Json.arr elems) =>
            (match validateSections elems with
            | Except.error e => Except.error e
            | Except.ok secs => Except.ok ⟨s, ir, cl, secs⟩)
          | Except.ok _ => Except.error ⟨"ValidationError", "Input should be a valid list"⟩)
  | _ => Except.error ⟨"TypeError", "argument after ** must be a mapping"⟩

/-- `tailor_resume` (src/main.py:159-184).  `complete` models the external
completion service composed with `json.loads` on the returned message
content: given the messages and a call index it yields a parsed JSON value
or a raised exception (API failure and malformed JSON alike).  The handler
builds the two messages, makes exactly **one** completion call (index 0)
inside its `try`, validates the parsed object, and its `except Exception`
clause raises `HTTPException(500, f"AI error: {type(e).__name__}: {e}")`
without issuing any further call.  The second component of the result is
the trace of call indices issued to the completion service. -/
def tailor_resume (complete : List (String × String) → Nat → Except PyExn Json)
    (req : TailorRequest) : Except (Nat × String) TailorResponse × List Nat :=
  let messages := [("system", SYSTEM_PROMPT), ("user", _user_prompt req)]
  match complete messages 0 with
  | Except.error e =>
    (Except.error (500, "AI error: " ++ e.typeName ++ ": " ++ e.message), [0])
  | Except.ok data =>
    match validateTailorResponse data with
    | Except.ok resp => (Except.ok resp, [0])
    | Except.error e =>
      (Except.error (500, "AI error: " ++ e.typeName ++ ": " ++ e.message), [0])

/-! ## Rate limiting (src/main.py lines 33-37 and 160)

`src/main.py` only configures the limiter — `Limiter(key_func =
get_remote_address)` plus the decorator `@limiter.limit("20/minute")` on
`tailor_resume`, and no decorator on any other route — while the counting
itself happens inside the external `slowapi` library.  The fixed-window
counter below is therefore modelled from the spec. -/

/-- Modelled from the spec: the per-(client, window) hit counts held by the
`slowapi` limiter (process-wide, reset by fixed 60-second windows); the
counting code itself is in the external library, not in `src/`. -/
structure RateLimitState where
  hits : List ((String × Nat) × Nat)

/-- Modelled from the spec: the count recorded for a client in a window. -/
def countOf (st : RateLimitState) (client : String) (window : Nat) : Nat :=
  (st.hits.lookup (client, window)).getD 0

/-- Modelled from the spec: record one hit for a client in a window. -/
def recordHit (st : RateLimitState) (client : String) (window : Nat) : RateLimitState :=
  ⟨((client, window), countOf st client window + 1) :: st.hits⟩

/-- The four routes of the application (src/main.py:41, 45, 133, 159). -/
inductive Route where
  | root
  | checkKey
  | parseResume
  | tailor
deriving DecidableEq

/-- An inbound HTTP request as the rate-limit gate sees it: the client
identifier derived from the remote network address, the arrival time in
seconds, and the route addressed. -/
structure HttpRequest where
  client : String
  time : Nat
  route : Route

/-- Whether a request reached its route handler or was rejected by the
gate before the handler ran. -/
inductive GateOutcome where
  | reachedHandler
  | rejected (status_code : Nat)
deriving DecidableEq

/-- Modelled from the spec: the fixed-window rate-limit gate.  Only the
tailoring route is decorated with `@limiter.limit("20/minute")`
(src/main.py:160); a tailoring request in a 60-second window whose client
already has 20 recorded hits in that window is rejected with HTTP 429
before the handler runs; every other route passes through unconditionally. -/
def gateStep (st : RateLimitState) (r : HttpRequest) : GateOutcome × RateLimitState :=
  if r.route = Route.tailor then
    let w := r.time / 60
    if countOf st r.client w < 20 then
      (GateOutcome.reachedHandler, recordHit st r.client w)
    else
      (GateOutcome.rejected 429, st)
  else
    (GateOutcome.reachedHandler, st)

/-- Modelled from the spec: the gate applied to a sequence of inbound
requests, threading the limiter state. -/
def gateRun (st : RateLimitState) : List HttpRequest → List GateOutcome × RateLimitState
  | [] => ([], st)
  | r :: rs =>
    let fst := gateStep st r
    let rest := gateRun fst.2 rs
    (fst.1 :: rest.1, rest.2)

/-! ## Helper lemmas -/

/-- A nonempty suffix fixes the last element of the list it is a suffix of. -/
lemma isSuffixOf_getLast {α : Type} [BEq α] [LawfulBEq α] {s l : List α}
    (h : List.isSuffixOf s l = true) (hs : s ≠ []) : l.getLast? = s.getLast? := by
  rw [List.isSuffixOf_iff_suffix] at h
  obtain ⟨t, rfl⟩ := h
  exact List.getLast?_append_of_ne_nil t hs

/-- Two nonempty candidate suffixes with different last elements cannot both
be suffixes of the same list: used to show the `endswith` dispatch branches
of `parse_resume` are mutually exclusive. -/
lemma suffix_excl {α : Type} [BEq α] [LawfulBEq α] {l s₁ : List α} (s₂ : List α)
    (h₁ : List.isSuffixOf s₁ l = true) (hne₁ : s₁ ≠ []) (hne₂ : s₂ ≠ [])
    (hlast : s₁.getLast? ≠ s₂.getLast?) : List.isSuffixOf s₂ l = false := by
  cases h₂ : List.isSuffixOf s₂ l with
  | false => rfl
  | true =>
    exact absurd ((isSuffixOf_getLast h₁ hne₁).symm.trans (isSuffixOf_getLast h₂ hne₂)) hlast

/-! ## Claim theorems -/

/-- Claim C6, counterexample: for the credential `"sk-short"` (8 characters,
so not longer than the 10-character prefix that `check_key` displays) the
`/check-key` response is `ok` with `key_starts_with` equal to the **entire**
secret followed by `"..."` — the full secret occurs in the response,
refuting "for every value of the credential, the response never contains
the full secret". -/
theorem check_key_short_secret_leaks :
    check_key "sk-short" = CheckKeyResult.ok ("sk-short" ++ "...")
      ∧ List.isPrefixOf "sk-short".data ("sk-short" ++ "...").data = true := by
  constructor <;> decide

/-- Claim C6 (amended): `check_key` answers `missing` when the credential is
absent (read back as the empty string) and otherwise `ok` carrying the
first 10 characters of the secret followed by `"..."`; the response depends
only on the first 10 characters of the secret — so it never reveals
anything beyond that prefix, although for secrets of at most 10 characters
that prefix is the whole secret. -/
theorem check_key_prefix_only (key k₁ k₂ : String)
    (hk : key ≠ "") (h₁ : k₁ ≠ "") (h₂ : k₂ ≠ "") (hpre : k₁.take 10 = k₂.take 10) :
    check_key "" = CheckKeyResult.missing "OPENAI_API_KEY not found"
      ∧ check_key key = CheckKeyResult.ok (key.take 10 ++ "...")
      ∧ check_key k₁ = check_key k₂ := by
  refine ⟨rfl, ?_, ?_⟩
  · simp [check_key, hk]
  · simp [check_key, h₁, h₂, hpre]

/-- Witness for `check_key_prefix_only` at concrete secrets sharing their
first 10 characters. -/
theorem check_key_prefix_only_witness :
    check_key "" = CheckKeyResult.missing "OPENAI_API_KEY not found"
      ∧ check_key "sk-abcdef12345" = CheckKeyResult.ok ("sk-abcdef12345".take 10 ++ "...")
      ∧ check_key "sk-abcdef12345" = check_key "sk-abcdef19999" :=
  check_key_prefix_only "sk-abcdef12345" "sk-abcdef12345" "sk-abcdef19999"
    (by decide) (by decide) (by decide) (by decide)

/-- Claim C9: the prompt builder is a pure function of the request — equal
requests give equal user prompts (and the system prompt is a constant);
when `target_title` is absent the user prompt is the one obtained by
interpolating `"the target role"` in its place; and a request built from
only the two required fields defaults `tone` to `"Professional"` and
`instructions` to the empty string. -/
theorem user_prompt_deterministic (r₁ r₂ : TailorRequest) (h : r₁ = r₂)
    (r : TailorRequest) (ht : r.target_title = none) (a b : String) :
    _user_prompt r₁ = _user_prompt r₂
      ∧ _user_prompt r = _user_prompt { r with target_title := some "the target role" }
      ∧ ({ resume_text := a, job_text := b } : TailorRequest).tone = some "Professional"
      ∧ ({ resume_text := a, job_text := b } : TailorRequest).instructions = some "" := by
  subst h
  refine ⟨rfl, ?_, rfl, rfl⟩
  obtain ⟨rt, jt, tt, tn, ins⟩ := r
  simp only at ht
  subst ht
  rfl

/-- Witness for `user_prompt_deterministic` at a concrete request. -/
theorem user_prompt_deterministic_witness :
    _user_prompt { resume_text := "Managed a team of 5 engineers", job_text := "Engineering manager wanted" }
        = _user_prompt { resume_text := "Managed a team of 5 engineers", job_text := "Engineering manager wanted" }
      ∧ _user_prompt { resume_text := "Managed a team of 5 engineers", job_text := "Engineering manager wanted" }
          = _user_prompt { resume_text := "Managed a team of 5 engineers", job_text := "Engineering manager wanted", target_title := some "the target role" }
      ∧ ({ resume_text := "x", job_text := "y" } : TailorRequest).tone = some "Professional"
      ∧ ({ resume_text := "x", job_text := "y" } : TailorRequest).instructions = some "" :=
  user_prompt_deterministic _ _ rfl
    { resume_text := "Managed a team of 5 engineers", job_text := "Engineering manager wanted" } rfl "x" "y"

/-- Claim C10: a missing upload filename is normalised to `""` by
`(file.filename or "")`, which ends in none of `.docx`/`.pdf`/`.txt`, so
`parse_resume` rejects the upload with the HTTP 400 unsupported-file-type
error — and does so without consulting either extraction library (the
result is the same for arbitrary extractor behaviour). -/
theorem parse_resume_missing_filename
    (document document₂ : List Nat → Except Unit (List (List Char)))
    (pdfx pdfx₂ : List Nat → Except Unit (List Char)) (content : List Nat) :
    parse_resume document pdfx none content
        = Except.error (EndpointFailure.http 400
            "Unsupported file type. Please upload PDF, DOCX, or TXT.")
      ∧ parse_resume document pdfx (some []) content
          = Except.error (EndpointFailure.http 400
              "Unsupported file type. Please upload PDF, DOCX, or TXT.")
      ∧ parse_resume document pdfx none content = parse_resume document₂ pdfx₂ none content := by
  refine ⟨rfl, rfl, rfl⟩

/-- Claim C5: when the lowercased filename ends in none of the three
supported extensions, `parse_resume` fails with the HTTP 400 error whose
message enumerates the accepted types, and no extraction is performed on
the bytes (the result does not depend on the extractor functions). -/
theorem parse_resume_unsupported
    (document document₂ : List Nat → Except Unit (List (List Char)))
    (pdfx pdfx₂ : List Nat → Except Unit (List Char))
    (filename : Option (List Char)) (content : List Nat)
    (hdocx : List.isSuffixOf ".docx".data ((filename.getD []).map Char.toLower) = false)
    (hpdf : List.isSuffixOf ".pdf".data ((filename.getD []).map Char.toLower) = false)
    (htxt : List.isSuffixOf ".txt".data ((filename.getD []).map Char.toLower) = false) :
    parse_resume document pdfx filename content
        = Except.error (EndpointFailure.http 400
            "Unsupported file type. Please upload PDF, DOCX, or TXT.")
      ∧ parse_resume document pdfx filename content
          = parse_resume document₂ pdfx₂ filename content := by
  constructor <;> simp [parse_resume, hdocx, hpdf, htxt]

/-- Witness for `parse_resume_unsupported` at the spec's example `.rtf`
upload. -/
theorem parse_resume_unsupported_witness :
    parse_resume (fun _ => Except.ok [['a']]) (fun _ => Except.ok ['b'])
        (some "resume.rtf".data) [104, 105]
        = Except.error (EndpointFailure.http 400
            "Unsupported file type. Please upload PDF, DOCX, or TXT.")
      ∧ parse_resume (fun _ => Except.ok [['a']]) (fun _ => Except.ok ['b'])
          (some "resume.rtf".data) [104, 105]
          = parse_resume (fun _ => Except.error ()) (fun _ => Except.error ())
              (some "resume.rtf".data) [104, 105] :=
  parse_resume_unsupported _ _ _ _ (some "resume.rtf".data) [104, 105]
    (by decide) (by decide) (by decide)

/-- Claim C7: for every byte sequence uploaded under a name whose lowercase
form ends in `.txt`, `parse_resume` succeeds — the decode-with-ignore never
raises — and returns the UTF-8 decoding of the decodable portions of the
bytes (through the endpoint's 200000-character cap, which is the identity
whenever the decoded text fits it). -/
theorem parse_resume_txt (document : List Nat → Except Unit (List (List Char)))
    (pdfx : List Nat → Except Unit (List Char))
    (filename : Option (List Char)) (content : List Nat)
    (htxt : List.isSuffixOf ".txt".data ((filename.getD []).map Char.toLower) = true) :
    parse_resume document pdfx filename content
        = Except.ok ((utf8DecodeIgnore content).take 200000)
      ∧ ((utf8DecodeIgnore content).length ≤ 200000 →
          parse_resume document pdfx filename content = Except.ok (utf8DecodeIgnore content)) := by
  have hdocx : List.isSuffixOf ".docx".data ((filename.getD []).map Char.toLower) = false :=
    suffix_excl _ htxt (by decide) (by decide) (by decide)
  have hpdf : List.isSuffixOf ".pdf".data ((filename.getD []).map Char.toLower) = false :=
    suffix_excl _ htxt (by decide) (by decide) (by decide)
  have h1 : parse_resume document pdfx filename content
      = Except.ok ((utf8DecodeIgnore content).take 200000) := by
    simp [parse_resume, hdocx, hpdf, htxt]
  exact ⟨h1, fun hlen => by rw [h1, List.take_of_length_le hlen]⟩

/-- Witness for `parse_resume_txt`: a `.txt` upload containing an invalid
byte (255) still succeeds, returning the decoding with that byte dropped. -/
theorem parse_resume_txt_witness :
    parse_resume (fun _ => Except.error ()) (fun _ => Except.error ())
        (some "a.txt".data) [104, 255, 105] = Except.ok (utf8DecodeIgnore [104, 255, 105]) :=
  (parse_resume_txt _ _ (some "a.txt".data) [104, 255, 105] (by decide)).2 (by decide)

/-- Claim C8: the `.docx` extraction joins the document's paragraph texts
with newline characters; when no paragraph itself contains a newline,
splitting the result on newlines recovers exactly the paragraph list — one
paragraph per line, in the original order. -/
theorem docx_paragraphs_joined (document : List Nat → Except Unit (List (List Char)))
    (file_bytes : List Nat) (ps : List (List Char))
    (hdoc : document file_bytes = Except.ok ps)
    (hnl : ∀ p ∈ ps, ('\n' : Char) ∉ p) (hne : ps ≠ []) :
    _docx_to_text document file_bytes = Except.ok (List.intercalate ['\n'] ps)
      ∧ (List.intercalate ['\n'] ps).splitOn '\n' = ps := by
  exact ⟨by simp [_docx_to_text, hdoc, Except.map], List.splitOn_intercalate ps '\n' hnl hne⟩

/-- Witness for `docx_paragraphs_joined` at a two-paragraph document. -/
theorem docx_paragraphs_joined_witness :
    _docx_to_text (fun _ => Except.ok [['a'], ['b', 'c']]) [0]
        = Except.ok (List.intercalate ['\n'] [['a'], ['b', 'c']])
      ∧ (List.intercalate ['\n'] [['a'], ['b', 'c']]).splitOn '\n' = [['a'], ['b', 'c']] :=
  docx_paragraphs_joined _ [0] _ rfl (by decide) (by decide)

/-- Claim C4: whenever `parse_resume` returns text, that text is exactly
the first 200000 characters of the text the matched branch extracted, and
so its length never exceeds 200000 — for every extractor behaviour and
every input size. -/
theorem parse_resume_cap (document : List Nat → Except Unit (List (List Char)))
    (pdfx : List Nat → Except Unit (List Char))
    (filename : Option (List Char)) (content : List Nat) (text : List Char)
    (h : parse_resume document pdfx filename content = Except.ok text) :
    text.length ≤ 200000
      ∧ ∃ full,
          extractedText document pdfx ((filename.getD []).map Char.toLower) content
              = Except.ok full
            ∧ text = full.take 200000 := by
  have hx : ∃ full,
      extractedText document pdfx ((filename.getD []).map Char.toLower) content
          = Except.ok full
        ∧ text = full.take 200000 := by
    unfold parse_resume at h
    unfold extractedText
    cases hdx : List.isSuffixOf ".docx".data ((filename.getD []).map Char.toLower) with
    | true =>
      simp only [hdx, if_true] at h ⊢
      cases hdoc : _docx_to_text document content with
      | ok t =>
        rw [hdoc] at h
        simp at h
        exact ⟨t, rfl, h.symm⟩
      | error e =>
        rw [hdoc] at h
        simp at h
    | false =>
      simp only [hdx, Bool.false_eq_true, if_false] at h ⊢
      cases hpd : List.isSuffixOf ".pdf".data ((filename.getD []).map Char.toLower) with
      | true =>
        simp only [hpd, if_true] at h ⊢
        cases hp : _pdf_to_text pdfx content with
        | ok t =>
          rw [hp] at h
          simp at h
          exact ⟨t, rfl, h.symm⟩
        | error e =>
          rw [hp] at h
          simp at h
      | false =>
        simp only [hpd, Bool.false_eq_true, if_false] at h ⊢
        cases htx : List.isSuffixOf ".txt".data ((filename.getD []).map Char.toLower) with
        | true =>
          simp only [htx, if_true] at h ⊢
          simp at h
          exact ⟨utf8DecodeIgnore content, rfl, h.symm⟩
        | false =>
          simp only [htx, Bool.false_eq_true, if_false] at h
          simp at h
  obtain ⟨full, hfull, htext⟩ := hx
  subst htext
  refine ⟨?_, full, hfull, rfl⟩
  simp only [List.length_take]
  omega

/-- Witness for `parse_resume_cap` at a concrete `.txt` upload. -/
theorem parse_resume_cap_witness :
    (['h', 'i'] : List Char).length ≤ 200000
      ∧ ∃ full,
          extractedText (fun _ => Except.error ()) (fun _ => Except.error ())
              (((some "a.txt".data : Option (List Char)).getD []).map Char.toLower) [104, 105]
              = Except.ok full
            ∧ ['h', 'i'] = full.take 200000 :=
  parse_resume_cap (fun _ => Except.error ()) (fun _ => Except.error ())
    (some "a.txt".data) [104, 105] ['h', 'i'] (by decide)

/-- Inversion: a successful `requiredField` means the key was present with
that value. -/
lemma requiredField_ok {fields : List (String × Json)} {k : String} {j : Json}
    (h : requiredField fields k = Except.ok j) : fields.lookup k = some j := by
  unfold requiredField at h
  cases hl : fields.lookup k with
  | some j0 =>
    rw [hl] at h
    simp at h
    rw [h]
  | none =>
    rw [hl] at h
    simp at h

/-- Inversion: pydantic accepts a `str` field exactly on JSON strings. -/
lemma validateStr_ok {j : Json} {s : String} (h : validateStr j = Except.ok s) :
    j = Json.str s := by
  cases j <;> simp_all [validateStr]

/-- Inversion: a successfully validated string field was present in the
object as that JSON string. -/
lemma validateField_ok {fields : List (String × Json)} {k : String} {s : String}
    (h : validateField fields k = Except.ok s) :
    fields.lookup k = some (Json.str s) := by
  unfold validateField at h
  cases hr : requiredField fields k with
  | error e =>
    rw [hr] at h
    simp at h
  | ok j =>
    rw [hr] at h
    replace h : validateStr j = Except.ok s := h
    rw [requiredField_ok hr, validateStr_ok h]

/-- Inversion for `TailorResponse(**data)`: a successful validation means
the JSON value was an object holding all four required keys with values of
the declared types (the three strings verbatim, and a `sections` array each
of whose elements validates to the corresponding section). -/
lemma validateTailorResponse_ok {j : Json} {resp : TailorResponse}
    (h : validateTailorResponse j = Except.ok resp) :
    ∃ fields, j = Json.obj fields
      ∧ fields.lookup "summary" = some (Json.str resp.summary)
      ∧ fields.lookup "improved_resume" = some (Json.str resp.improved_resume)
      ∧ fields.lookup "cover_letter" = some (Json.str resp.cover_letter)
      ∧ ∃ elems, fields.lookup "sections" = some (Json.arr elems)
          ∧ validateSections elems = Except.ok resp.sections := by
  cases j with
  | obj fields =>
    refine ⟨fields, rfl, ?_⟩
    simp only [validateTailorResponse] at h
    cases h1 : validateField fields "summary" with
    | error e => rw [h1] at h; simp at h
    | ok s =>
      rw [h1] at h
      cases h2 : validateField fields "improved_resume" with
      | error e => rw [h2] at h; simp at h
      | ok ir =>
        rw [h2] at h
        cases h3 : validateField fields "cover_letter" with
        | error e => rw [h3] at h; simp at h
        | ok cl =>
          rw [h3] at h
          cases h4 : requiredField fields "sections" with
          | error e => rw [h4] at h; simp at h
          | ok sj =>
            rw [h4] at h
            cases sj with
            | arr elems =>
              replace h : (match validateSections elems with
                  | Except.error e => (Except.error e : Except PyExn TailorResponse)
                  | Except.ok secs => Except.ok (TailorResponse.mk s ir cl secs))
                  = Except.ok resp := h
              cases h5 : validateSections elems with
              | error e => rw [h5] at h; simp at h
              | ok secs =>
                rw [h5] at h
                replace h : (Except.ok (TailorResponse.mk s ir cl secs)
                    : Except PyExn TailorResponse) = Except.ok resp := h
                injection h with h
                subst h
                exact ⟨validateField_ok h1, validateField_ok h2, validateField_ok h3,
                  elems, requiredField_ok h4, h5⟩
            | null => simp at h
            | bool b => simp at h
            | num n => simp at h
            | str s2 => simp at h
            | obj fs2 => simp at h
  | null => simp [validateTailorResponse] at h
  | bool b => simp [validateTailorResponse] at h
  | num n => simp [validateTailorResponse] at h
  | str s => simp [validateTailorResponse] at h
  | arr elems => simp [validateTailorResponse] at h

/-- A schema-valid completion reply used by several concrete scenarios:
one section with two bullets. -/
def goodJson : Json :=
  Json.obj [("summary", Json.str "s"), ("improved_resume", Json.str "i"),
    ("cover_letter", Json.str "c"),
    ("sections", Json.arr [Json.obj [("heading", Json.str "h"),
      ("bullets", Json.arr [Json.str "b1", Json.str "b2"])]])]

/-- A completion service whose first call (index 0) raises a connection
error and whose second call (the fallback the spec describes, index 1)
would return a schema-valid JSON object. -/
def fallbackReadyOracle : List (String × String) → Nat → Except PyExn Json :=
  fun _ i =>
    if i = 0 then Except.error ⟨"APIConnectionError", "Connection error."⟩
    else Except.ok goodJson

/-- Claim C1, counterexample: against a completion service whose primary
call fails but whose second call would return a schema-valid object,
`tailor_resume` surfaces the HTTP 500 `AI error` immediately and its call
trace is `[0]` — no second (fallback) call is ever attempted, even though
that call would have succeeded.  This refutes "attempts a second, fallback
JSON-object completion call ... an AIError is returned only when the
fallback attempt also fails". -/
theorem tailor_no_fallback_counterexample :
    tailor_resume fallbackReadyOracle { resume_text := "r", job_text := "j" }
        = (Except.error (500, "AI error: APIConnectionError: Connection error."), [0])
      ∧ fallbackReadyOracle
          [("system", SYSTEM_PROMPT), ("user", _user_prompt { resume_text := "r", job_text := "j" })] 1
          = Except.ok goodJson
      ∧ validateTailorResponse goodJson = Except.ok ⟨"s", "i", "c", [⟨"h", ["b1", "b2"]⟩]⟩ :=
  ⟨rfl, rfl, rfl⟩

/-- Claim C1 (amended): the handler makes a single completion call inside
its `try`; if that call or the JSON parse of its reply raises, **or** if
the validation of the parsed reply raises, the handler immediately returns
the HTTP 500 `AI error: <type>: <message>` response — and in every
execution (failure of either kind, or success) the call trace is exactly
`[0]`: there is never a fallback call. -/
theorem tailor_single_call (complete : List (String × String) → Nat → Except PyExn Json)
    (req : TailorRequest) :
    (∀ e : PyExn,
        complete [("system", SYSTEM_PROMPT), ("user", _user_prompt req)] 0 = Except.error e →
        tailor_resume complete req
          = (Except.error (500, "AI error: " ++ e.typeName ++ ": " ++ e.message), [0]))
      ∧ (∀ (data : Json) (e : PyExn),
          complete [("system", SYSTEM_PROMPT), ("user", _user_prompt req)] 0 = Except.ok data →
          validateTailorResponse data = Except.error e →
          tailor_resume complete req
            = (Except.error (500, "AI error: " ++ e.typeName ++ ": " ++ e.message), [0]))
      ∧ (tailor_resume complete req).2 = [0] := by
  refine ⟨?_, ?_, ?_⟩
  · intro e hfail
    simp only [tailor_resume]
    rw [hfail]
  · intro data e hok hval
    simp only [tailor_resume]
    rw [hok]
    show (match validateTailorResponse data with
        | Except.ok r => ((Except.ok r : Except (Nat × String) TailorResponse), ([0] : List Nat))
        | Except.error e2 =>
          (Except.error (500, "AI error: " ++ e2.typeName ++ ": " ++ e2.message), [0]))
        = (Except.error (500, "AI error: " ++ e.typeName ++ ": " ++ e.message), [0])
    rw [hval]
  · simp only [tailor_resume]
    cases hc : complete [("system", SYSTEM_PROMPT), ("user", _user_prompt req)] 0 with
    | error e => rfl
    | ok data =>
      show (match validateTailorResponse data with
          | Except.ok r => ((Except.ok r : Except (Nat × String) TailorResponse), ([0] : List Nat))
          | Except.error e2 =>
            (Except.error (500, "AI error: " ++ e2.typeName ++ ": " ++ e2.message), [0])).2 = [0]
      cases validateTailorResponse data with
      | error e => rfl
      | ok r => rfl

/-- Witness for `tailor_single_call`: a completion-call failure, a
validation failure (reply missing the `improved_resume` key), and a
successful exchange — each surfacing as the amended claim states, and each
with call trace `[0]`. -/
theorem tailor_single_call_witness :
    tailor_resume (fun _ _ => Except.error ⟨"JSONDecodeError", "Expecting value"⟩)
        { resume_text := "r", job_text := "j" }
        = (Except.error (500, "AI error: " ++ "JSONDecodeError" ++ ": " ++ "Expecting value"), [0])
      ∧ tailor_resume (fun _ _ => Except.ok (Json.obj [("summary", Json.str "s")]))
          { resume_text := "r", job_text := "j" }
          = (Except.error (500,
              "AI error: " ++ "ValidationError" ++ ": " ++ "Field required: improved_resume"), [0])
      ∧ (tailor_resume (fun _ _ => Except.ok goodJson) { resume_text := "r", job_text := "j" }).2
          = [0] :=
  ⟨(tailor_single_call (fun _ _ => Except.error ⟨"JSONDecodeError", "Expecting value"⟩)
      { resume_text := "r", job_text := "j" }).1 ⟨"JSONDecodeError", "Expecting value"⟩ rfl,
    (tailor_single_call (fun _ _ => Except.ok (Json.obj [("summary", Json.str "s")]))
      { resume_text := "r", job_text := "j" }).2.1 (Json.obj [("summary", Json.str "s")])
      ⟨"ValidationError", "Field required: improved_resume"⟩ rfl rfl,
    (tailor_single_call (fun _ _ => Except.ok goodJson)
      { resume_text := "r", job_text := "j" }).2.2⟩

/-- Claim C2, counterexample: a completion reply whose `sections` array is
**empty** passes validation, so the endpoint returns it successfully — the
sections list has length 0 < 3 (and there is no bullets constraint either),
refuting "the sections list has length at least 3, and every section's
bullets list has length at least 2" as a guarantee of successful
responses. -/
theorem tailor_accepts_empty_sections_counterexample :
    tailor_resume (fun _ _ => Except.ok (Json.obj [("summary", Json.str "s"),
        ("improved_resume", Json.str "i"), ("cover_letter", Json.str "c"),
        ("sections", Json.arr [])]))
      { resume_text := "Managed a team of 5 engineers",
        job_text := "Looking for an engineering manager" }
        = (Except.ok ⟨"s", "i", "c", []⟩, [0])
      ∧ (([] : List TailoredSection).length < 3) :=
  ⟨rfl, by decide⟩

/-- Claim C2 (amended): whenever the tailoring endpoint returns
successfully, the completion reply was a JSON object containing all four
top-level keys with values of their declared types — `summary`,
`improved_resume`, `cover_letter` strings and `sections` an array whose
elements each validate to a heading plus string bullets — but no minimum
cardinality is enforced on `sections` or on any `bullets` list. -/
theorem tailor_success_shape (complete : List (String × String) → Nat → Except PyExn Json)
    (req : TailorRequest) (resp : TailorResponse) (calls : List Nat)
    (h : tailor_resume complete req = (Except.ok resp, calls)) :
    ∃ fields,
      complete [("system", SYSTEM_PROMPT), ("user", _user_prompt req)] 0
          = Except.ok (Json.obj fields)
        ∧ fields.lookup "summary" = some (Json.str resp.summary)
        ∧ fields.lookup "improved_resume" = some (Json.str resp.improved_resume)
        ∧ fields.lookup "cover_letter" = some (Json.str resp.cover_letter)
        ∧ ∃ elems, fields.lookup "sections" = some (Json.arr elems)
            ∧ validateSections elems = Except.ok resp.sections := by
  simp only [tailor_resume] at h
  cases hc : complete [("system", SYSTEM_PROMPT), ("user", _user_prompt req)] 0 with
  | error e =>
    rw [hc] at h
    simp at h
  | ok data =>
    rw [hc] at h
    replace h : (match validateTailorResponse data with
        | Except.ok r => ((Except.ok r : Except (Nat × String) TailorResponse), ([0] : List Nat))
        | Except.error e =>
          (Except.error (500, "AI error: " ++ e.typeName ++ ": " ++ e.message), [0]))
        = (Except.ok resp, calls) := h
    cases hv : validateTailorResponse data with
    | error e =>
      rw [hv] at h
      simp at h
    | ok resp0 =>
      rw [hv] at h
      simp [Prod.ext_iff] at h
      obtain ⟨rfl, rfl⟩ := h
      obtain ⟨fields, rfl, hs, hir, hcl, elems, hsec, hvs⟩ := validateTailorResponse_ok hv
      exact ⟨fields, rfl, hs, hir, hcl, elems, hsec, hvs⟩

/-- A completion service that always answers with `goodJson`. -/
def constGoodOracle : List (String × String) → Nat → Except PyExn Json :=
  fun _ _ => Except.ok goodJson

/-- Witness for `tailor_success_shape` at a concrete successful exchange. -/
theorem tailor_success_shape_witness :
    ∃ fields,
      constGoodOracle [("system", SYSTEM_PROMPT),
          ("user", _user_prompt { resume_text := "r", job_text := "j" })] 0
          = Except.ok (Json.obj fields)
        ∧ fields.lookup "summary" = some (Json.str "s")
        ∧ fields.lookup "improved_resume" = some (Json.str "i")
        ∧ fields.lookup "cover_letter" = some (Json.str "c")
        ∧ ∃ elems, fields.lookup "sections" = some (Json.arr elems)
            ∧ validateSections elems = Except.ok [⟨"h", ["b1", "b2"]⟩] :=
  tailor_success_shape constGoodOracle { resume_text := "r", job_text := "j" }
    ⟨"s", "i", "c", [⟨"h", ["b1", "b2"]⟩]⟩ [0] rfl

/-- Recording a hit bumps the recorded count for that client and window. -/
lemma countOf_recordHit_same (st : RateLimitState) (c : String) (w : Nat) :
    countOf (recordHit st c w) c w = countOf st c w + 1 := by
  simp [countOf, recordHit, List.lookup]

/-- The gate on a list of requests decomposes along list append. -/
lemma gateRun_append (st : RateLimitState) (l₁ l₂ : List HttpRequest) :
    gateRun st (l₁ ++ l₂)
      = ((gateRun st l₁).1 ++ (gateRun (gateRun st l₁).2 l₂).1,
          (gateRun (gateRun st l₁).2 l₂).2) := by
  induction l₁ generalizing st with
  | nil => simp [gateRun]
  | cons r rs ih => simp [gateRun, ih]

/-- While a client's recorded count in a window stays at most 20, every
tailoring request from that client in that window reaches the handler, and
each bumps the count by one. -/
lemma gateRun_under (c : String) (w : Nat) (ts : List Nat) (st : RateLimitState)
    (hw : ∀ t ∈ ts, t / 60 = w) (hlen : countOf st c w + ts.length ≤ 20) :
    (gateRun st (ts.map fun t => ⟨c, t, Route.tailor⟩)).1
        = List.replicate ts.length GateOutcome.reachedHandler
      ∧ countOf (gateRun st (ts.map fun t => ⟨c, t, Route.tailor⟩)).2 c w
          = countOf st c w + ts.length := by
  induction ts generalizing st with
  | nil => simp [gateRun]
  | cons t ts ih =>
    have hw0 : t / 60 = w := hw t (List.mem_cons_self t ts)
    have hlt : countOf st c w < 20 := by
      simp only [List.length_cons] at hlen
      omega
    have hstep : gateStep st ⟨c, t, Route.tailor⟩
        = (GateOutcome.reachedHandler, recordHit st c w) := by
      simp [gateStep, hw0, hlt]
    have ihr := ih (recordHit st c w) (fun u hu => hw u (List.mem_cons_of_mem _ hu))
      (by rw [countOf_recordHit_same]; simp only [List.length_cons] at hlen; omega)
    refine ⟨?_, ?_⟩
    · simp only [List.map_cons, gateRun, hstep, List.length_cons, List.replicate_succ]
      rw [ihr.1]
    · simp only [List.map_cons, gateRun, hstep, List.length_cons]
      rw [ihr.2, countOf_recordHit_same]
      omega

/-- At quota (20 or more hits recorded), a tailoring request is rejected
with 429 and the state is unchanged. -/
lemma gateStep_tailor_at_quota (st : RateLimitState) (c : String) (t : Nat)
    (h : 20 ≤ countOf st c (t / 60)) :
    gateStep st ⟨c, t, Route.tailor⟩ = (GateOutcome.rejected 429, st) := by
  simp [gateStep, show ¬ countOf st c (t / 60) < 20 from by omega]

/-- Claim C3 (the fixed-window counting is modelled from the spec, the
limit `20/minute`, the client key and the decorated route from
src/main.py:33-37,160): when 21 tailoring requests from the same client
fall in the same 60-second window, the first 20 reach the handler and the
21st is rejected with HTTP 429 before the handler runs; requests to any
other route are never gated. -/
theorem rate_limit_quota (c : String) (w : Nat) (ts : List Nat)
    (hw : ∀ t ∈ ts, t / 60 = w) (hlen : ts.length = 21) :
    (gateRun ⟨[]⟩ (ts.map fun t => ⟨c, t, Route.tailor⟩)).1
        = List.replicate 20 GateOutcome.reachedHandler ++ [GateOutcome.rejected 429]
      ∧ ∀ (st : RateLimitState) (r : HttpRequest),
          r.route ≠ Route.tailor → (gateStep st r).1 = GateOutcome.reachedHandler := by
  constructor
  · obtain ⟨t21, hdrop⟩ : ∃ a, ts.drop 20 = [a] :=
      List.length_eq_one.mp (by rw [List.length_drop, hlen])
    have hts : ts = ts.take 20 ++ [t21] := by rw [← hdrop, List.take_append_drop]
    have hlen20 : (ts.take 20).length = 20 := by simp [List.length_take, hlen]
    have hw20 : ∀ t ∈ ts.take 20, t / 60 = w := fun t ht => hw t (List.mem_of_mem_take ht)
    have hzero : countOf ⟨[]⟩ c w = 0 := rfl
    have hmain := gateRun_under c w (ts.take 20) ⟨[]⟩ hw20 (by rw [hzero, hlen20])
    have ht21w : t21 / 60 = w := by
      refine hw t21 ?_
      rw [hts]
      exact List.mem_append_right _ (List.mem_singleton_self t21)
    have hcount20 :
        countOf (gateRun ⟨[]⟩ ((ts.take 20).map fun t => ⟨c, t, Route.tailor⟩)).2 c w = 20 := by
      rw [hmain.2, hzero, hlen20]
    have hreject := gateStep_tailor_at_quota
      (gateRun ⟨[]⟩ ((ts.take 20).map fun t => ⟨c, t, Route.tailor⟩)).2 c t21
      (by rw [ht21w, hcount20])
    conv in ts => rw [hts]
    rw [List.map_append, gateRun_append]
    simp only [List.map_cons, List.map_nil, gateRun, hreject]
    rw [hmain.1, hlen20]
  · intro st r hr
    simp [gateStep, hr]

/-- Witness for `rate_limit_quota`: 21 requests at second 30 from one
address; a `check-key` request is not gated. -/
theorem rate_limit_quota_witness :
    (gateRun ⟨[]⟩ ((List.replicate 21 30).map fun t => ⟨"203.0.113.7", t, Route.tailor⟩)).1
        = List.replicate 20 GateOutcome.reachedHandler ++ [GateOutcome.rejected 429]
      ∧ (gateStep ⟨[]⟩ ⟨"203.0.113.7", 30, Route.checkKey⟩).1 = GateOutcome.reachedHandler :=
  ⟨(rate_limit_quota "203.0.113.7" 0 (List.replicate 21 30) (by decide) (by decide)).1,
    (rate_limit_quota "203.0.113.7" 0 (List.replicate 21 30) (by decide) (by decide)).2
      ⟨[]⟩ ⟨"203.0.113.7", 30, Route.checkKey⟩ (by decide)⟩

end ResuMatch
